import Mathlib

/-!
Verification development for the wiimote transport layer.

Shallow embedding of the C++ sources:
  - `wiimote_shared.h`  : device identity filter (`is_wiimote`, `is_wiimote_device_name`)
  - `wiimote_linux.cpp` : socket backend (`WiimoteLinux.read`, `read_timeout`, `write`)
  - `wiimote_win.cpp`   : overlapped-handle backend (`WiimoteWindows.read_timeout_impl`,
                          `WiimoteWindows.write`)
  - `wiimote_api.cpp`   : identifier accessors (`wiimote_get_identifier_length`,
                          `wiimote_get_identifier`)
  - `wiimote_scan_linux.cpp` / `wiimote_scan_win.cpp` : registry queue (`wiimotes_get_next`)

OS calls (`::read`, `::write`, `poll`, `ReadFile`, `WriteFile`, `WaitForSingleObject`,
`GetOverlappedResult`) are modelled as explicit oracle parameters describing the outcome
the OS chose for each call; buffers are `List Nat` (byte values).
-/

/-- `constexpr const size_t DEFAULT_BUFFER_SIZE = 32;` from `wiimote_api.h`. -/
def DEFAULT_BUFFER_SIZE : Nat := 32

/-- `constexpr uint16_t WIIMOTE_VENDOR_ID = 0x057E;` from `wiimote_shared.h`. -/
def WIIMOTE_VENDOR_ID : Nat := 0x057E

/-- `constexpr uint16_t WIIMOTE_PRODUCT_ID = 0x0306;` from `wiimote_shared.h`. -/
def WIIMOTE_PRODUCT_ID : Nat := 0x0306

/-- `constexpr uint16_t WIIMOTE_PLUS_PRODUCT_ID = 0x0330;` from `wiimote_shared.h`. -/
def WIIMOTE_PLUS_PRODUCT_ID : Nat := 0x0330

/-- `is_wiimote_device_name` from `wiimote_shared.h`: exact string comparison against two
literal names. -/
def is_wiimote_device_name (name : String) : Bool :=
  name == "Nintendo RVL-CNT-01" || name == "Nintendo RVL-CNT-01-TR"

/-- `is_wiimote` from `wiimote_shared.h`: vendor id must match, and one of two product ids. -/
def is_wiimote (vendor_id product_id : Nat) : Bool :=
  vendor_id == WIIMOTE_VENDOR_ID
    && (product_id == WIIMOTE_PRODUCT_ID || product_id == WIIMOTE_PLUS_PRODUCT_ID)

/-- `constexpr const uint8_t INPUT_PREFIX = 0xA1;` from `wiimote_linux.cpp`. -/
def INPUT_PREFIX : Nat := 0xA1

/-- `constexpr const uint8_t OUTPUT_PREFIX = 0xA2;` from `wiimote_linux.cpp`. -/
def OUTPUT_PREFIX : Nat := 0xA2

/-- Outcome of a `::read` call on the data socket: `fail` is a return of -1, `data bytes`
is a return of `bytes.length` with `bytes` placed at the start of the supplied buffer
(`bytes = []` is the EOF return of 0). -/
inductive OsReadResult where
  | fail
  | data (bytes : List Nat)

/-- An OS `::read` oracle is well-formed when it never reports more bytes than the count
it was asked for. -/
def OsReadWf (osRead : Nat → OsReadResult) : Prop :=
  ∀ c bytes, osRead c = OsReadResult.data bytes → bytes.length ≤ c

/-- Outcome of a `poll` call with one fd: return 1 (ready), 0 (timeout) or -1 (error). -/
inductive PollResult where
  | ready
  | timedOut
  | fail

namespace WiimoteLinux

/-- `WiimoteLinux::read` from `wiimote_linux.cpp` lines 34-47.
`osRead count` is the outcome of `::read(m_data_socket, read_buffer, count)`.
Returns `some (ret, copied)` where `ret` is the `int32_t` return value and `copied` are
the bytes `memcpy`-ed into the caller's buffer; `none` models the
`assert(read_buffer[0] == INPUT_PREFIX)` firing. -/
def read (osRead : Nat → OsReadResult) (buffer_size : Nat) : Option (Int × List Nat) :=
  let max_data_size := min (DEFAULT_BUFFER_SIZE - 1) buffer_size
  match osRead max_data_size with
  | OsReadResult.fail => some (-1, [])
  | OsReadResult.data bytes =>
    if bytes.length = 0 then
      some (0, [])
    else if bytes.head? = some INPUT_PREFIX then
      some ((bytes.length : Int) - 1, bytes.drop 1)
    else
      none

/-- `WiimoteLinux::read_timeout` from `wiimote_linux.cpp` lines 49-60: a `poll` with the
given timeout precedes the read; a non-positive poll result is returned directly. -/
def read_timeout (osPoll : PollResult) (osRead : Nat → OsReadResult) (buffer_size : Nat) :
    Option (Int × List Nat) :=
  match osPoll with
  | PollResult.timedOut => some (0, [])
  | PollResult.fail => some (-1, [])
  | PollResult.ready => read osRead buffer_size

/-- `WiimoteLinux::write` from `wiimote_linux.cpp` lines 62-71.
`osWrite frame` is the raw return of `::write(m_data_socket, frame, frame.length)`
(-1 on error, the number of bytes accepted otherwise). Returns the pair of the
`int32_t` return value (`bytes_written - 1`) and the frame handed to `::write`. -/
def write (osWrite : List Nat → Int) (buffer : List Nat) : Int × List Nat :=
  let data_bytes := min (DEFAULT_BUFFER_SIZE - 1) buffer.length
  let frame := OUTPUT_PREFIX :: List.take data_bytes buffer
  (osWrite frame - 1, frame)

end WiimoteLinux

/-- A data socket on which the frame `frame` is queued: `::read` with count `c` obtains
the first `min c frame.length` bytes of it. -/
def loopbackRead (frame : List Nat) : Nat → OsReadResult :=
  fun count => OsReadResult.data (List.take count frame)

/-- Loopback round trip: `write` the payload `data` through the socket backend with a
fully successful send, let the peer echo the frame back as an input report (marker byte
replaced by `INPUT_PREFIX`), and `read` it back with caller capacity `capacity`. -/
def roundTrip (data : List Nat) (capacity : Nat) : Option (Int × List Nat) :=
  let frame := (WiimoteLinux.write (fun f => (f.length : Int)) data).2
  let echoed := INPUT_PREFIX :: List.drop 1 frame
  WiimoteLinux.read (loopbackRead echoed) capacity

theorem loopbackRead_wf (frame : List Nat) : OsReadWf (loopbackRead frame) := by
  intro c bytes h
  simp only [loopbackRead, OsReadResult.data.injEq] at h
  subst h
  exact List.length_take_le c frame

/-- Outcome of the `ReadFile` call: completed synchronously (returned TRUE), returned
FALSE with `GetLastError() == ERROR_IO_PENDING`, or returned FALSE with any other error. -/
inductive ReadFileOutcome where
  | sync
  | ioPending
  | fail

/-- Outcome of a `WaitForSingleObject` call. -/
inductive WaitOutcome where
  | object0
  | timeout
  | failed

/-- Outcome of `GetOverlappedResult` on the read overlapped structure: on success the OS
reports `bytes_read` and `data` is the content of `m_read_buffer` at completion. -/
inductive OverlappedReadOutcome where
  | ok (bytes_read : Nat) (data : List Nat)
  | fail

/-- The OS outcomes one call to `WiimoteWindows::read_timeout_impl` can observe. The
`wait` and `overlapped` fields describe the single outstanding overlapped read operation
on `m_overlapped_read`, whether it was issued by this call or by an earlier one. -/
structure ReadCallEnv where
  readFile : ReadFileOutcome
  wait : WaitOutcome
  overlapped : OverlappedReadOutcome

/-- Result of one call to `WiimoteWindows::read_timeout_impl`: the `int32_t` return
value, the bytes copied into the caller's buffer, the value of `m_read_pending` on
return, whether `ReadFile` was invoked, whether an asynchronous operation was created
(`ReadFile` invoked and it did not fail outright), and whether `GetOverlappedResult`
was reached (the outstanding operation was completed and consumed). -/
structure WinReadOut where
  ret : Int
  copied : List Nat
  read_pending : Bool
  readFileCalled : Bool
  issuedOp : Bool
  completedOp : Bool
deriving DecidableEq

namespace WiimoteWindows

/-- Lines 62-70 of `wiimote_win.cpp`: `GetOverlappedResult`, clear `m_read_pending`,
copy `min(bytes_read, buffer_size)` bytes out on success, -1 on failure. -/
def finishRead (env : ReadCallEnv) (bsize : Nat) (readFileCalled issuedOp : Bool) :
    WinReadOut :=
  match env.overlapped with
  | OverlappedReadOutcome.ok bytes_read data =>
    let bytes_to_copy := min bytes_read bsize
    { ret := (bytes_to_copy : Int), copied := List.take bytes_to_copy data,
      read_pending := false, readFileCalled := readFileCalled, issuedOp := issuedOp,
      completedOp := true }
  | OverlappedReadOutcome.fail =>
    { ret := -1, copied := [], read_pending := false, readFileCalled := readFileCalled,
      issuedOp := issuedOp, completedOp := true }

/-- Lines 51-60 of `wiimote_win.cpp`, reached with `did_read == false` and
`m_read_pending == true`: wait on the completion event when a timeout was requested;
`WAIT_TIMEOUT` returns 0 and `WAIT_FAILED` returns -1, both leaving `m_read_pending`
set; otherwise fall through to `finishRead`. -/
def waitPhase (env : ReadCallEnv) (bsize : Nat) (timeout_millis : Option Nat)
    (readFileCalled issuedOp : Bool) : WinReadOut :=
  match timeout_millis with
  | some _ =>
    match env.wait with
    | WaitOutcome.timeout =>
      { ret := 0, copied := [], read_pending := true, readFileCalled := readFileCalled,
        issuedOp := issuedOp, completedOp := false }
    | WaitOutcome.failed =>
      { ret := -1, copied := [], read_pending := true, readFileCalled := readFileCalled,
        issuedOp := issuedOp, completedOp := false }
    | WaitOutcome.object0 => finishRead env bsize readFileCalled issuedOp
  | none => finishRead env bsize readFileCalled issuedOp

/-- `WiimoteWindows::read_timeout_impl` from `wiimote_win.cpp` lines 35-71.
`read_pending` is `m_read_pending` on entry, `read_buffer_len` is
`m_read_buffer.size()` (the negotiated input report length), `buffer_size` the caller
capacity, `timeout_millis` the optional timeout. When `m_read_pending` is already set,
no `ReadFile` is issued and the call goes straight to the wait on the outstanding
operation; when it is clear, `ReadFile` is issued: TRUE skips the wait
(`did_read == true`), FALSE with `ERROR_IO_PENDING` sets `m_read_pending` and waits,
any other failure returns -1 immediately. -/
def read_timeout_impl (env : ReadCallEnv) (read_pending : Bool)
    (read_buffer_len buffer_size : Nat) (timeout_millis : Option Nat) : WinReadOut :=
  let bsize := min buffer_size read_buffer_len
  if read_pending then
    waitPhase env bsize timeout_millis false false
  else
    match env.readFile with
    | ReadFileOutcome.fail =>
      { ret := -1, copied := [], read_pending := false, readFileCalled := true,
        issuedOp := false, completedOp := false }
    | ReadFileOutcome.sync => finishRead env bsize true true
    | ReadFileOutcome.ioPending => waitPhase env bsize timeout_millis true true

/-- One discovery-to-caller read call as it appears in a trace: the OS outcomes, the
caller capacity and the optional timeout. -/
def ReadCall := ReadCallEnv × Nat × Option Nat

/-- State threaded through a trace of read calls on one Transport: the value of
`m_read_pending` and the number of asynchronous read requests currently outstanding on
the OS handle (requests issued and not yet completed). -/
def readStep (read_buffer_len : Nat) (st : Bool × Nat) (call : ReadCall) : Bool × Nat :=
  let out := read_timeout_impl call.1 st.1 read_buffer_len call.2.1 call.2.2
  (out.read_pending,
    st.2 + (if out.issuedOp then 1 else 0) - (if out.completedOp then 1 else 0))

/-- Run a sequence of `read`/`read_timeout` calls on a freshly constructed Transport
(`m_read_pending = false`, no outstanding request). -/
def readTrace (read_buffer_len : Nat) (calls : List ReadCall) : Bool × Nat :=
  List.foldl (readStep read_buffer_len) (false, 0) calls

/-- Outcome of the `WriteFile` call: TRUE (synchronous completion), FALSE with
`ERROR_IO_PENDING`, or FALSE with any other error. -/
inductive WriteFileOutcome where
  | sync
  | ioPending
  | fail

/-- Outcome of `GetOverlappedResult` on the write overlapped structure. -/
inductive OverlappedWriteOutcome where
  | ok (bytes_written : Nat)
  | fail

/-- The OS outcomes one call to `WiimoteWindows::write` can observe. -/
structure WriteCallEnv where
  writeFile : WriteFileOutcome
  wait : WaitOutcome
  overlapped : OverlappedWriteOutcome

/-- Result of one call to `WiimoteWindows::write`: the `int32_t` return value, the value
of `m_write_pending` on return, and the report handed to `WriteFile` (the caller data
clipped to the output report length and zero-padded up to it). -/
structure WinWriteOut where
  ret : Int
  write_pending : Bool
  report : List Nat
deriving DecidableEq

/-- `WiimoteWindows::write` from `wiimote_win.cpp` lines 73-101.
`write_pending_before` is `m_write_pending` on entry (it only gates an initial
`WaitForSingleObject` whose result is ignored); `write_buffer_len` is
`m_write_buffer.size()`. The flag is set before `WriteFile`; the FALSE-with-other-error
path returns -1 without touching it again, the failed-wait path clears it and returns
-1, and every completed path clears it before `GetOverlappedResult`. -/
def write (env : WriteCallEnv) (write_pending_before : Bool)
    (write_buffer_len : Nat) (buffer : List Nat) : WinWriteOut :=
  let data_size := min buffer.length write_buffer_len
  let report := List.take data_size buffer ++ List.replicate (write_buffer_len - data_size) 0
  match env.writeFile with
  | WriteFileOutcome.sync =>
    match env.overlapped with
    | OverlappedWriteOutcome.ok n => { ret := (n : Int), write_pending := false, report := report }
    | OverlappedWriteOutcome.fail => { ret := -1, write_pending := false, report := report }
  | WriteFileOutcome.fail => { ret := -1, write_pending := true, report := report }
  | WriteFileOutcome.ioPending =>
    match env.wait with
    | WaitOutcome.object0 =>
      match env.overlapped with
      | OverlappedWriteOutcome.ok n => { ret := (n : Int), write_pending := false, report := report }
      | OverlappedWriteOutcome.fail => { ret := -1, write_pending := false, report := report }
    | WaitOutcome.timeout => { ret := -1, write_pending := false, report := report }
    | WaitOutcome.failed => { ret := -1, write_pending := false, report := report }

end WiimoteWindows

/-- `wiimote_get_identifier_length` from `wiimote_api.cpp` lines 13-15: the identifier
length plus one for the terminating byte. The identifier `std::string` is a `List Char`. -/
def wiimote_get_identifier_length (identifier : List Char) : Nat :=
  identifier.length + 1

/-- `wiimote_get_identifier` from `wiimote_api.cpp` lines 17-26. `buffer` is the caller's
buffer content before the call; returns the `bool` result and the buffer content after
the call: on success the identifier plus its null terminator are `memcpy`-ed over the
first `length + 1` cells, the rest untouched; on failure the buffer is untouched. -/
def wiimote_get_identifier (identifier : List Char) (buffer : List Char)
    (identifier_buffer_length : Nat) : Bool × List Char :=
  let length_with_null := identifier.length + 1
  if length_with_null > identifier_buffer_length then
    (false, buffer)
  else
    (true, (identifier ++ [Char.ofNat 0]) ++ List.drop length_with_null buffer)

/-- `wiimotes_get_next` from `wiimote_scan_linux.cpp` lines 100-108 (identically
`wiimote_scan_win.cpp` lines 200-208): return `nullptr` when the queue is empty,
otherwise pop and return the front. The state of `std::queue<Wiimote*> wiimotes` is a
`List α` (front first); returns the claimed element and the queue afterwards. -/
def wiimotes_get_next {α : Type} (wiimotes : List α) : Option α × List α :=
  match wiimotes with
  | [] => (none, [])
  | w :: rest => (some w, rest)

/-- The registry queue after `n` successive `wiimotes_get_next` calls. -/
def queueAfter {α : Type} (wiimotes : List α) : Nat → List α
  | 0 => wiimotes
  | n + 1 => (wiimotes_get_next (queueAfter wiimotes n)).2

/-! ## Theorems -/

/-- C5: the identity filter accepts a (vendor, product) pair exactly when the vendor is
0x057E and the product is 0x0306 or 0x0330, and accepts a name exactly when it is one of
the two literal strings; both comparisons are exact, so every other pair or string
(case variants included) is rejected. -/
theorem identity_filter_exact (vendor_id product_id : Nat) (name : String) :
    (is_wiimote vendor_id product_id = true ↔
      vendor_id = 0x057E ∧ (product_id = 0x0306 ∨ product_id = 0x0330))
    ∧ (is_wiimote_device_name name = true ↔
      name = "Nintendo RVL-CNT-01" ∨ name = "Nintendo RVL-CNT-01-TR") := by
  constructor
  · simp [is_wiimote, WIIMOTE_VENDOR_ID, WIIMOTE_PRODUCT_ID, WIIMOTE_PLUS_PRODUCT_ID]
  · simp [is_wiimote_device_name]

theorem wiimotes_get_next_eq {α : Type} (q : List α) :
    wiimotes_get_next q = (q.head?, q.tail) := by
  cases q <;> rfl

theorem queueAfter_eq_drop {α : Type} (q : List α) (n : Nat) :
    queueAfter q n = List.drop n q := by
  induction n with
  | zero => rfl
  | succ n ih =>
    show (wiimotes_get_next (queueAfter q n)).2 = _
    rw [ih, wiimotes_get_next_eq, List.tail_drop]

/-- C8: `wiimotes_get_next` returns `none` with the queue unchanged (empty) when the
queue is empty, and otherwise removes and returns exactly the front entry; consequently
the n-th successive claim returns the n-th discovered Transport, so claims are FIFO and
each enqueued Transport is claimed at most once. -/
theorem claim_next_fifo {α : Type} (wiimotes : List α) :
    wiimotes_get_next wiimotes = (wiimotes.head?, wiimotes.tail)
    ∧ ∀ n, (wiimotes_get_next (queueAfter wiimotes n)).1 = wiimotes.get? n := by
  refine ⟨wiimotes_get_next_eq wiimotes, fun n => ?_⟩
  rw [queueAfter_eq_drop, wiimotes_get_next_eq]
  show (List.drop n wiimotes).head? = wiimotes.get? n
  rw [List.get?_eq_getElem?]
  exact List.head?_drop wiimotes n

/-- C6: `wiimote_get_identifier_length` reports the identifier length plus one for the
terminating byte; `wiimote_get_identifier` fails and leaves the buffer untouched when
the capacity is below that (in particular at capacity = length), and with sufficient
capacity succeeds, writing the identifier and its null terminator over the first
length + 1 cells and leaving the rest of the buffer unchanged. -/
theorem identifier_capacity_boundary (identifier buffer : List Char) (cap : Nat) :
    wiimote_get_identifier_length identifier = identifier.length + 1
    ∧ (cap < identifier.length + 1 →
        wiimote_get_identifier identifier buffer cap = (false, buffer))
    ∧ (identifier.length + 1 ≤ cap →
        (wiimote_get_identifier identifier buffer cap).1 = true
        ∧ List.take (identifier.length + 1) (wiimote_get_identifier identifier buffer cap).2
            = identifier ++ [Char.ofNat 0]
        ∧ List.drop (identifier.length + 1) (wiimote_get_identifier identifier buffer cap).2
            = List.drop (identifier.length + 1) buffer) := by
  refine ⟨rfl, fun h => ?_, fun h => ?_⟩
  · simp only [wiimote_get_identifier]
    rw [if_pos h]
  · have hno : ¬ identifier.length + 1 > cap := Nat.not_lt.mpr h
    simp only [wiimote_get_identifier]
    rw [if_neg hno]
    refine ⟨rfl, ?_, ?_⟩
    · have hlen : (identifier ++ [Char.ofNat 0]).length = identifier.length + 1 := by simp
      rw [← hlen, List.take_left]
    · have hlen : (identifier ++ [Char.ofNat 0]).length = identifier.length + 1 := by simp
      rw [← hlen, List.drop_left]

/-- C6 witness: with identifier "a" (length 1, so required capacity 2), capacity 1 fails
and leaves the buffer untouched, capacity 2 succeeds. -/
theorem identifier_capacity_boundary_witness :
    (1 < (['a'] : List Char).length + 1)
    ∧ wiimote_get_identifier ['a'] ['x', 'y', 'z'] 1 = (false, ['x', 'y', 'z'])
    ∧ (wiimote_get_identifier ['a'] ['x', 'y', 'z'] 2).1 = true :=
  ⟨by decide, (identifier_capacity_boundary ['a'] ['x', 'y', 'z'] 1).2.1 (by decide),
    ((identifier_capacity_boundary ['a'] ['x', 'y', 'z'] 2).2.2 (by decide)).1⟩

/-- C7: on a fully successful send (the OS accepts every byte handed to it), the socket
backend clips the payload to `DEFAULT_BUFFER_SIZE - 1 = 31` bytes, sends the output
marker followed by that payload as one single `::write`, and returns the payload count
excluding the marker, i.e. `min N 31` for input length N. -/
theorem linux_write_clips_and_counts (osWrite : List Nat → Int) (buffer : List Nat)
    (hos : ∀ f, osWrite f = (f.length : Int)) :
    (WiimoteLinux.write osWrite buffer).2
      = OUTPUT_PREFIX :: List.take (min (DEFAULT_BUFFER_SIZE - 1) buffer.length) buffer
    ∧ (WiimoteLinux.write osWrite buffer).1 = ((min buffer.length 31 : Nat) : Int) := by
  refine ⟨rfl, ?_⟩
  show osWrite (OUTPUT_PREFIX :: List.take (min (DEFAULT_BUFFER_SIZE - 1) buffer.length) buffer)
      - 1 = _
  rw [hos]
  have hmin : min (DEFAULT_BUFFER_SIZE - 1) buffer.length ≤ buffer.length :=
    Nat.min_le_right _ _
  have h31 : min (DEFAULT_BUFFER_SIZE - 1) buffer.length = min buffer.length 31 := by
    simp only [DEFAULT_BUFFER_SIZE]
    omega
  simp only [List.length_cons, List.length_take]
  rw [Nat.min_eq_left hmin, h31]
  push_cast
  ring

/-- C7 witness: a 3-byte payload is sent as the marker plus those 3 bytes and reported
as 3 bytes written. -/
theorem linux_write_clips_and_counts_witness :
    (WiimoteLinux.write (fun f => (f.length : Int)) [1, 2, 3]).2
      = OUTPUT_PREFIX :: List.take (min (DEFAULT_BUFFER_SIZE - 1) ([1, 2, 3] : List Nat).length)
          [1, 2, 3]
    ∧ (WiimoteLinux.write (fun f => (f.length : Int)) [1, 2, 3]).1
      = ((min ([1, 2, 3] : List Nat).length 31 : Nat) : Int) :=
  linux_write_clips_and_counts (fun f => (f.length : Int)) [1, 2, 3] (fun _ => rfl)

/-- C3: when the OS `::write` fails and returns -1, `WiimoteLinux::write` returns
`bytes_written - 1 = -2`, not the -1 sentinel that `wiimote_api.h` documents
("Returns the number of bytes written or -1 on error"). This holds for every input
buffer, so the backend never produces the documented -1 on a hard send failure. -/
theorem linux_write_os_failure_returns_minus_two (buffer : List Nat) :
    (WiimoteLinux.write (fun _ => (-1 : Int)) buffer).1 = -2 := by
  rfl

theorem linux_read_eq_fail (osRead : Nat → OsReadResult) (buffer_size : Nat)
    (h : osRead (min (DEFAULT_BUFFER_SIZE - 1) buffer_size) = OsReadResult.fail) :
    WiimoteLinux.read osRead buffer_size = some (-1, []) := by
  simp only [WiimoteLinux.read]
  rw [h]

theorem linux_read_eq_data (osRead : Nat → OsReadResult) (buffer_size : Nat)
    (bytes : List Nat)
    (h : osRead (min (DEFAULT_BUFFER_SIZE - 1) buffer_size) = OsReadResult.data bytes) :
    WiimoteLinux.read osRead buffer_size
      = if bytes.length = 0 then some (0, [])
        else if bytes.head? = some INPUT_PREFIX then
          some ((bytes.length : Int) - 1, List.drop 1 bytes)
        else none := by
  simp only [WiimoteLinux.read]
  rw [h]

/-- C10: the socket backend asks the OS for at most `min 31 capacity` bytes (the result
of `read` depends on the OS read oracle only through its answer at that count), hence a
successful call returns a payload count of at most 30 and at most `capacity - 1`. -/
theorem linux_read_payload_bound (osRead : Nat → OsReadResult) (capacity : Nat)
    (hwf : OsReadWf osRead) :
    (∀ os2 : Nat → OsReadResult,
      os2 (min 31 capacity) = osRead (min 31 capacity) →
      WiimoteLinux.read os2 capacity = WiimoteLinux.read osRead capacity)
    ∧ ∀ ret out, WiimoteLinux.read osRead capacity = some (ret, out) → 1 ≤ ret →
        ret ≤ 30 ∧ ret ≤ (capacity : Int) - 1 := by
  have hbuf : DEFAULT_BUFFER_SIZE - 1 = 31 := rfl
  constructor
  · intro os2 h2
    simp only [WiimoteLinux.read, hbuf]
    rw [h2]
  · intro ret out hread hpos
    rcases hcase : osRead (min (DEFAULT_BUFFER_SIZE - 1) capacity) with _ | bytes
    · rw [linux_read_eq_fail osRead capacity hcase] at hread
      simp only [Option.some.injEq, Prod.mk.injEq] at hread
      obtain ⟨h1, _⟩ := hread
      omega
    · rw [linux_read_eq_data osRead capacity bytes hcase] at hread
      have hlen : bytes.length ≤ min (DEFAULT_BUFFER_SIZE - 1) capacity := hwf _ _ hcase
      have hlen31 : bytes.length ≤ 31 := by
        refine le_trans hlen ?_
        rw [hbuf]
        exact Nat.min_le_left _ _
      have hlencap : bytes.length ≤ capacity := le_trans hlen (Nat.min_le_right _ _)
      by_cases hz : bytes.length = 0
      · rw [if_pos hz] at hread
        simp only [Option.some.injEq, Prod.mk.injEq] at hread
        obtain ⟨h1, _⟩ := hread
        omega
      · rw [if_neg hz] at hread
        by_cases hp : bytes.head? = some INPUT_PREFIX
        · rw [if_pos hp] at hread
          simp only [Option.some.injEq, Prod.mk.injEq] at hread
          obtain ⟨hret, _⟩ := hread
          subst hret
          constructor <;> omega
        · rw [if_neg hp] at hread
          exact absurd hread (by simp)

/-- C10 witness: a two-byte frame (marker plus one payload byte) read with capacity 5
yields payload count 1, within both bounds. -/
theorem linux_read_payload_bound_witness :
    WiimoteLinux.read (loopbackRead [161, 7]) 5 = some (1, [7])
    ∧ (1 : Int) ≤ 30 ∧ (1 : Int) ≤ ((5 : Nat) : Int) - 1 :=
  ⟨by decide,
    (linux_read_payload_bound (loopbackRead [161, 7]) 5 (loopbackRead_wf _)).2 1 [7]
      (by decide) (by decide)⟩

/-- C2 counterexample: a 31-byte payload (31 = frame size minus one, the claim's stated
maximum) does not round trip: the read side asks the OS for at most 31 of the 32 frame
bytes, so only 30 payload bytes come back even with ample capacity (32). -/
theorem roundTrip_31_loses_a_byte :
    roundTrip (List.replicate 31 7) 32 ≠ some ((31 : Int), List.replicate 31 7) := by
  decide

/-- C2 amended: for payloads of at most 30 bytes and read capacity of at least the
payload length plus one, the loopback round trip returns exactly the original bytes
with the marker stripped and the count equal to the payload length. -/
theorem roundTrip_preserves_payload (data : List Nat) (capacity : Nat)
    (hlen : data.length ≤ 30) (hcap : data.length + 1 ≤ capacity) :
    roundTrip data capacity = some ((data.length : Int), data) := by
  have hbuf : DEFAULT_BUFFER_SIZE - 1 = 31 := rfl
  have hmin : min (DEFAULT_BUFFER_SIZE - 1) data.length = data.length := by
    rw [hbuf]; omega
  have hframe : (WiimoteLinux.write (fun f => (f.length : Int)) data).2
      = OUTPUT_PREFIX :: data := by
    show OUTPUT_PREFIX :: List.take (min (DEFAULT_BUFFER_SIZE - 1) data.length) data
        = OUTPUT_PREFIX :: data
    rw [hmin, List.take_length]
  have htake : List.take (min (DEFAULT_BUFFER_SIZE - 1) capacity) (INPUT_PREFIX :: data)
      = INPUT_PREFIX :: data := by
    apply List.take_of_length_le
    simp only [List.length_cons, hbuf]
    omega
  have hdata : loopbackRead (INPUT_PREFIX :: data) (min (DEFAULT_BUFFER_SIZE - 1) capacity)
      = OsReadResult.data (INPUT_PREFIX :: data) := by
    simp only [loopbackRead]
    rw [htake]
  simp only [roundTrip, hframe, List.drop_succ_cons, List.drop_zero]
  rw [linux_read_eq_data _ _ _ hdata]
  simp

/-- C2 witness for the amended claim: the payload [7, 7] with capacity 3 round-trips
exactly. -/
theorem roundTrip_preserves_payload_witness :
    ([7, 7] : List Nat).length ≤ 30 ∧ ([7, 7] : List Nat).length + 1 ≤ 3
    ∧ roundTrip [7, 7] 3 = some ((([7, 7] : List Nat).length : Int), [7, 7]) :=
  ⟨by decide, by decide, roundTrip_preserves_payload [7, 7] 3 (by decide) (by decide)⟩

theorem finishRead_ret_le (rf : ReadFileOutcome) (w : WaitOutcome)
    (ov : OverlappedReadOutcome) (bsize : Nat) (a b : Bool) :
    (WiimoteWindows.finishRead ⟨rf, w, ov⟩ bsize a b).ret ≤ (bsize : Int) := by
  cases ov with
  | ok n d =>
    show ((min n bsize : Nat) : Int) ≤ (bsize : Int)
    have := Nat.min_le_right n bsize
    omega
  | fail =>
    show (-1 : Int) ≤ (bsize : Int)
    omega

theorem waitPhase_ret_le (rf : ReadFileOutcome) (w : WaitOutcome)
    (ov : OverlappedReadOutcome) (bsize : Nat) (t : Option Nat) (a b : Bool) :
    (WiimoteWindows.waitPhase ⟨rf, w, ov⟩ bsize t a b).ret ≤ (bsize : Int) := by
  cases t with
  | none => exact finishRead_ret_le rf w ov bsize a b
  | some t0 =>
    cases w with
    | object0 => exact finishRead_ret_le rf WaitOutcome.object0 ov bsize a b
    | timeout =>
      show (0 : Int) ≤ (bsize : Int)
      omega
    | failed =>
      show (-1 : Int) ≤ (bsize : Int)
      omega

/-- C4: no read path on either backend returns a byte count above the caller capacity:
the socket backend's `read` and `read_timeout` (under a well-formed OS read), and every
outcome of the handle backend's `read_timeout_impl`, return at most `capacity`. -/
theorem read_count_le_capacity :
    (∀ (osRead : Nat → OsReadResult) (capacity : Nat), OsReadWf osRead →
      ∀ ret out, WiimoteLinux.read osRead capacity = some (ret, out) →
        ret ≤ (capacity : Int))
    ∧ (∀ (osPoll : PollResult) (osRead : Nat → OsReadResult) (capacity : Nat),
        OsReadWf osRead →
      ∀ ret out, WiimoteLinux.read_timeout osPoll osRead capacity = some (ret, out) →
        ret ≤ (capacity : Int))
    ∧ (∀ (env : ReadCallEnv) (read_pending : Bool) (read_buffer_len capacity : Nat)
        (timeout_millis : Option Nat),
        (WiimoteWindows.read_timeout_impl env read_pending read_buffer_len capacity
          timeout_millis).ret ≤ (capacity : Int)) := by
  have hlinux : ∀ (osRead : Nat → OsReadResult) (capacity : Nat), OsReadWf osRead →
      ∀ ret out, WiimoteLinux.read osRead capacity = some (ret, out) →
        ret ≤ (capacity : Int) := by
    intro osRead capacity hwf ret out hread
    rcases hcase : osRead (min (DEFAULT_BUFFER_SIZE - 1) capacity) with _ | bytes
    · rw [linux_read_eq_fail osRead capacity hcase] at hread
      simp only [Option.some.injEq, Prod.mk.injEq] at hread
      obtain ⟨h1, _⟩ := hread
      omega
    · rw [linux_read_eq_data osRead capacity bytes hcase] at hread
      have hlen : bytes.length ≤ min (DEFAULT_BUFFER_SIZE - 1) capacity := hwf _ _ hcase
      have hlencap : bytes.length ≤ capacity := le_trans hlen (Nat.min_le_right _ _)
      by_cases hz : bytes.length = 0
      · rw [if_pos hz] at hread
        simp only [Option.some.injEq, Prod.mk.injEq] at hread
        obtain ⟨h1, _⟩ := hread
        omega
      · rw [if_neg hz] at hread
        by_cases hp : bytes.head? = some INPUT_PREFIX
        · rw [if_pos hp] at hread
          simp only [Option.some.injEq, Prod.mk.injEq] at hread
          obtain ⟨hret, _⟩ := hread
          omega
        · rw [if_neg hp] at hread
          exact absurd hread (by simp)
  refine ⟨hlinux, ?_, ?_⟩
  · intro osPoll osRead capacity hwf ret out hread
    cases osPoll with
    | timedOut =>
      simp only [WiimoteLinux.read_timeout, Option.some.injEq, Prod.mk.injEq] at hread
      obtain ⟨h1, _⟩ := hread
      omega
    | fail =>
      simp only [WiimoteLinux.read_timeout, Option.some.injEq, Prod.mk.injEq] at hread
      obtain ⟨h1, _⟩ := hread
      omega
    | ready => exact hlinux osRead capacity hwf ret out hread
  · intro env read_pending read_buffer_len capacity timeout_millis
    rcases env with ⟨rf, w, ov⟩
    have hible : ((min capacity read_buffer_len : Nat) : Int) ≤ (capacity : Int) := by
      have := Nat.min_le_left capacity read_buffer_len
      omega
    cases read_pending with
    | true =>
      exact le_trans
        (waitPhase_ret_le rf w ov (min capacity read_buffer_len) timeout_millis false false)
        hible
    | false =>
      cases rf with
      | fail =>
        show (-1 : Int) ≤ (capacity : Int)
        omega
      | sync =>
        exact le_trans
          (finishRead_ret_le ReadFileOutcome.sync w ov (min capacity read_buffer_len) true true)
          hible
      | ioPending =>
        exact le_trans
          (waitPhase_ret_le ReadFileOutcome.ioPending w ov (min capacity read_buffer_len)
            timeout_millis true true)
          hible

/-- C4 witness: a concrete socket-backend read at capacity 5 returns 1 byte, at most
the capacity. -/
theorem read_count_le_capacity_witness : (1 : Int) ≤ ((5 : Nat) : Int) :=
  read_count_le_capacity.1 (loopbackRead [161, 7]) 5 (loopbackRead_wf _) 1 [7] (by decide)

theorem readStep_invariant (len : Nat) (pb : Bool) (call : WiimoteWindows.ReadCall) :
    (WiimoteWindows.readStep len (pb, if pb then 1 else 0) call).2
      = (if (WiimoteWindows.readStep len (pb, if pb then 1 else 0) call).1 then 1 else 0) := by
  obtain ⟨⟨rf, w, ov⟩, cap, t⟩ := call
  cases pb <;> cases rf <;> cases t <;> cases w <;> cases ov <;> rfl

theorem readTrace_aux (len : Nat) (calls : List WiimoteWindows.ReadCall) (pb : Bool) :
    (List.foldl (WiimoteWindows.readStep len) (pb, if pb then 1 else 0) calls).2
      = (if (List.foldl (WiimoteWindows.readStep len) (pb, if pb then 1 else 0) calls).1
          then 1 else 0) := by
  induction calls generalizing pb with
  | nil => cases pb <;> rfl
  | cons c cs ih =>
    rw [List.foldl_cons]
    have h2 := readStep_invariant len pb c
    have hs : WiimoteWindows.readStep len (pb, if pb then 1 else 0) c
        = ((WiimoteWindows.readStep len (pb, if pb then 1 else 0) c).1,
            if (WiimoteWindows.readStep len (pb, if pb then 1 else 0) c).1 then 1 else 0) := by
      rw [← h2]
    rw [hs]
    exact ih _

/-- C1: on the handle backend, at most one asynchronous read request is ever
outstanding: along any sequence of `read`/`read_timeout` calls from a fresh Transport,
the number of outstanding OS read requests equals the `m_read_pending` flag (so it
never exceeds 1); a call entered with `m_read_pending` set never invokes `ReadFile`
(it polls or waits on the outstanding operation instead); and a timeout expiry on a
pending operation returns 0, copies nothing, and leaves `m_read_pending` set so that
the next call resumes the same operation. -/
theorem win_read_single_outstanding (read_buffer_len : Nat) :
    (∀ calls : List WiimoteWindows.ReadCall,
      (WiimoteWindows.readTrace read_buffer_len calls).2
          = (if (WiimoteWindows.readTrace read_buffer_len calls).1 then 1 else 0)
        ∧ (WiimoteWindows.readTrace read_buffer_len calls).2 ≤ 1)
    ∧ (∀ (env : ReadCallEnv) (capacity : Nat) (timeout_millis : Option Nat),
        (WiimoteWindows.read_timeout_impl env true read_buffer_len capacity
          timeout_millis).readFileCalled = false)
    ∧ (∀ (rf : ReadFileOutcome) (ov : OverlappedReadOutcome) (capacity t : Nat),
        WiimoteWindows.read_timeout_impl ⟨rf, WaitOutcome.timeout, ov⟩ true
            read_buffer_len capacity (some t)
          = ⟨0, [], true, false, false, false⟩) := by
    refine ⟨fun calls => ?_, fun env capacity timeout_millis => ?_, fun rf ov capacity t => rfl⟩
    · have h0 : (WiimoteWindows.readTrace read_buffer_len calls).2
          = (if (WiimoteWindows.readTrace read_buffer_len calls).1 then 1 else 0) :=
        readTrace_aux read_buffer_len calls false
      refine ⟨h0, ?_⟩
      rw [h0]
      split <;> omega
    · rcases env with ⟨rf, w, ov⟩
      show (WiimoteWindows.waitPhase ⟨rf, w, ov⟩ (min capacity read_buffer_len)
        timeout_millis false false).readFileCalled = false
      cases timeout_millis with
      | none => cases ov <;> rfl
      | some t0 => cases w <;> [skip; rfl; rfl] <;> cases ov <;> rfl

/-- C9 counterexample: when `WriteFile` fails immediately with an error other than
`ERROR_IO_PENDING`, `WiimoteWindows::write` returns -1 with `m_write_pending` still set
to true, so not every return path leaves the flag false. -/
theorem win_write_flag_counterexample :
    (WiimoteWindows.write
        ⟨WiimoteWindows.WriteFileOutcome.fail, WaitOutcome.object0,
          WiimoteWindows.OverlappedWriteOutcome.ok 0⟩
        false 22 [1, 2]).write_pending ≠ false := by
  decide

/-- C9 amended: every return path of the handle-backend `write` leaves `m_write_pending`
false, except the path where `WriteFile` fails immediately with an error other than
`ERROR_IO_PENDING`: that path returns -1 with `m_write_pending` still true. -/
theorem win_write_flag_cleared (w : WaitOutcome)
    (ov : WiimoteWindows.OverlappedWriteOutcome) (write_pending_before : Bool)
    (write_buffer_len : Nat) (buffer : List Nat) :
    (WiimoteWindows.write ⟨WiimoteWindows.WriteFileOutcome.sync, w, ov⟩
        write_pending_before write_buffer_len buffer).write_pending = false
    ∧ (WiimoteWindows.write ⟨WiimoteWindows.WriteFileOutcome.ioPending, w, ov⟩
        write_pending_before write_buffer_len buffer).write_pending = false
    ∧ (WiimoteWindows.write ⟨WiimoteWindows.WriteFileOutcome.fail, w, ov⟩
        write_pending_before write_buffer_len buffer).ret = -1
    ∧ (WiimoteWindows.write ⟨WiimoteWindows.WriteFileOutcome.fail, w, ov⟩
        write_pending_before write_buffer_len buffer).write_pending = true := by
  refine ⟨?_, ?_, rfl, rfl⟩
  · cases ov <;> rfl
  · cases w with
    | object0 => cases ov <;> rfl
    | timeout => rfl
    | failed => rfl
